import Mathlib

/-!
Shallow embedding of the record-validation pipeline of the Python_Module_09
repository (src/ex0/space_station.py, src/ex1/alien_contact.py,
src/ex2/space_crew.py).

The three record kinds are pydantic models.  Validation of a raw input
proceeds in two phases:

* a field phase that checks every declared field constraint
  (`Field(min_length=..., max_length=..., ge=..., le=...)`), collecting one
  violation per offending field in field-declaration order (pydantic is
  exhaustive here); nested crew members of a mission are field-validated
  element by element with the field path prefixed by the list index;
* a business-rule phase (the `model_validator(mode="after")` methods
  `validate_business_rules` and `validate_mission_id`) that runs only when
  the field phase produced no violation and raises at the first failing
  rule, so an error report from this phase carries exactly one violation.

Raw inputs are modelled after coercion to the declared semantic types:
strings as `String`, ints as `Int`, floats as `Rat` (every comparison the
code performs on these floats is exact on the values involved), datetimes
as an uninterpreted `Nat` (no constraint is attached to any datetime
field), enums as Lean inductives.  A defaulted field (`is_verified`,
`is_operational`, `is_active`, `mission_status`) is carried in the raw
input as an `Option`, `none` meaning the caller omitted it, and the
pipeline fills in the declared default exactly as pydantic does.
-/

namespace PyMod09

/-- Machine-readable violation kinds of the error taxonomy. -/
inductive VKind where
  | rangeError
  | lengthError
  | enumError
  | sizeError
  | typeError
  | businessRuleError
deriving DecidableEq, Repr

/-- One failed constraint or rule: field path, kind, message. -/
structure Violation where
  field : String
  kind : VKind
  msg : String
deriving DecidableEq, Repr

/-- Validation outcome: an immutable validated record or an ordered,
non-empty error report. -/
inductive VResult (α : Type) where
  | ok : α → VResult α
  | error : List Violation → VResult α
deriving DecidableEq, Repr

/-- Message of a failed integer lower bound (`Field(ge=b)`). -/
def msgGeInt (b : Int) : String :=
  "Input should be greater than or equal to " ++ toString b

/-- Message of a failed integer upper bound (`Field(le=b)`). -/
def msgLeInt (b : Int) : String :=
  "Input should be less than or equal to " ++ toString b

/-- Message of a failed float lower bound (`Field(ge=b)`). -/
def msgGeRat (b : Rat) : String :=
  "Input should be greater than or equal to " ++ toString b

/-- Message of a failed float upper bound (`Field(le=b)`). -/
def msgLeRat (b : Rat) : String :=
  "Input should be less than or equal to " ++ toString b

/-- Message of a failed `min_length` on a string. -/
def msgMinLen (b : Nat) : String :=
  "String should have at least " ++ toString b ++ " characters"

/-- Message of a failed `max_length` on a string. -/
def msgMaxLen (b : Nat) : String :=
  "String should have at most " ++ toString b ++ " characters"

/-- Message of a failed `min_length` on a list field. -/
def msgMinItems (b : Nat) : String :=
  "List should have at least " ++ toString b ++ " items"

/-- Message of a failed `max_length` on a list field. -/
def msgMaxItems (b : Nat) : String :=
  "List should have at most " ++ toString b ++ " items"

/-- `Field(min_length=lo, max_length=hi)` on a string field. -/
def checkStrLen (f : String) (lo hi : Nat) (s : String) : List Violation :=
  if s.length < lo then [⟨f, .lengthError, msgMinLen lo⟩]
  else if hi < s.length then [⟨f, .lengthError, msgMaxLen hi⟩]
  else []

/-- `Field(ge=lo, le=hi)` on an integer field. -/
def checkIntRange (f : String) (lo hi : Int) (v : Int) : List Violation :=
  if v < lo then [⟨f, .rangeError, msgGeInt lo⟩]
  else if hi < v then [⟨f, .rangeError, msgLeInt hi⟩]
  else []

/-- `Field(ge=lo, le=hi)` on a float field. -/
def checkRatRange (f : String) (lo hi : Rat) (v : Rat) : List Violation :=
  if v < lo then [⟨f, .rangeError, msgGeRat lo⟩]
  else if hi < v then [⟨f, .rangeError, msgLeRat hi⟩]
  else []

/-- `Field(max_length=hi)` on an `Optional[str]` field: absent passes. -/
def checkOptStrMax (f : String) (hi : Nat) (s : Option String) : List Violation :=
  match s with
  | none => []
  | some s => if hi < s.length then [⟨f, .lengthError, msgMaxLen hi⟩] else []

/-- `Field(min_length=lo, max_length=hi)` on a list field, applied to the
element count. -/
def checkListSize (f : String) (lo hi : Nat) (n : Nat) : List Violation :=
  if n < lo then [⟨f, .sizeError, msgMinItems lo⟩]
  else if hi < n then [⟨f, .sizeError, msgMaxItems hi⟩]
  else []

/-! ### ex0: SpaceStation -/

/-- Validated `SpaceStation` record (src/ex0/space_station.py, lines 7-16). -/
structure SpaceStation where
  station_id : String
  name : String
  crew_size : Int
  power_level : Rat
  oxygen_level : Rat
  last_maintenance : Nat
  is_operational : Bool
  notes : Option String
deriving DecidableEq, Repr

/-- Raw input for a `SpaceStation`: `is_operational` defaults to `True`
and `notes` to `None` when omitted. -/
structure StationRaw where
  station_id : String
  name : String
  crew_size : Int
  power_level : Rat
  oxygen_level : Rat
  last_maintenance : Nat
  is_operational : Option Bool := none
  notes : Option String := none
deriving DecidableEq, Repr

/-- Field-phase constraints of `SpaceStation`, in declaration order. -/
def validateStationFields (r : StationRaw) : List Violation :=
  checkStrLen "station_id" 3 10 r.station_id ++
  checkStrLen "name" 1 50 r.name ++
  checkIntRange "crew_size" 1 20 r.crew_size ++
  checkRatRange "power_level" 0 100 r.power_level ++
  checkRatRange "oxygen_level" 0 100 r.oxygen_level ++
  checkOptStrMax "notes" 200 r.notes

/-- The record built on the success path, defaults filled in. -/
def mkStation (r : StationRaw) : SpaceStation :=
  ⟨r.station_id, r.name, r.crew_size, r.power_level, r.oxygen_level,
   r.last_maintenance, r.is_operational.getD true, r.notes⟩

/-- Full pipeline for `SpaceStation` (no business rules are declared). -/
def validateStation (r : StationRaw) : VResult SpaceStation :=
  match validateStationFields r with
  | [] => .ok (mkStation r)
  | v :: vs => .error (v :: vs)

/-! ### ex1: AlienContact -/

/-- Allowed alien contact types (src/ex1/alien_contact.py, lines 10-15). -/
inductive ContactType where
  | radio
  | visual
  | physical
  | telepathic
deriving DecidableEq, Repr

/-- Validated `AlienContact` record (src/ex1/alien_contact.py, lines 19-29). -/
structure AlienContact where
  contact_id : String
  timestamp : Nat
  location : String
  contact_type : ContactType
  signal_strength : Rat
  duration_minutes : Int
  witness_count : Int
  message_received : Option String
  is_verified : Bool
deriving DecidableEq, Repr

/-- Raw input for an `AlienContact`: `message_received` defaults to `None`
and `is_verified` to `False` when omitted. -/
structure ContactRaw where
  contact_id : String
  timestamp : Nat
  location : String
  contact_type : ContactType
  signal_strength : Rat
  duration_minutes : Int
  witness_count : Int
  message_received : Option String := none
  is_verified : Option Bool := none
deriving DecidableEq, Repr

/-- Field-phase constraints of `AlienContact`, in declaration order. -/
def validateContactFields (r : ContactRaw) : List Violation :=
  checkStrLen "contact_id" 5 15 r.contact_id ++
  checkStrLen "location" 3 100 r.location ++
  checkRatRange "signal_strength" 0 10 r.signal_strength ++
  checkIntRange "duration_minutes" 1 1440 r.duration_minutes ++
  checkIntRange "witness_count" 1 100 r.witness_count ++
  checkOptStrMax "message_received" 500 r.message_received

/-- The record built after the field phase, defaults filled in. -/
def mkContact (r : ContactRaw) : AlienContact :=
  ⟨r.contact_id, r.timestamp, r.location, r.contact_type, r.signal_strength,
   r.duration_minutes, r.witness_count, r.message_received,
   r.is_verified.getD false⟩

/-- Python `s.startswith(p)`, computed on the character lists of the two
strings. -/
def strStartsWith (s p : String) : Bool :=
  p.data.isPrefixOf s.data

/-- Python truthiness of `self.message_received`: `None` and the empty
string are falsy. -/
def isBlankMessage : Option String → Bool
  | none => true
  | some s => s == ""

/-- The `validate_business_rules` model validator of `AlienContact`
(src/ex1/alien_contact.py, lines 31-47): returns the message of the first
failing rule in declaration order, or `none` when every rule holds. -/
def validate_business_rules (c : AlienContact) : Option String :=
  if !(strStartsWith c.contact_id "AC") then
    some "Contact ID must start with 'AC' (Alien Contact)"
  else if c.contact_type = ContactType.physical ∧ c.is_verified = false then
    some "Physical contact reports must be verified"
  else if c.contact_type = ContactType.telepathic ∧ c.witness_count < 3 then
    some "Telepathic contact requires at least 3 witnesses"
  else if 7 < c.signal_strength ∧ isBlankMessage c.message_received = true then
    some "Strong signals (> 7.0) should include a received message"
  else
    none

/-- Full pipeline for `AlienContact`: exhaustive field phase, then the
short-circuit business-rule phase. -/
def validateContact (r : ContactRaw) : VResult AlienContact :=
  match validateContactFields r with
  | [] =>
    match validate_business_rules (mkContact r) with
    | some m => .error [⟨"", .businessRuleError, m⟩]
    | none => .ok (mkContact r)
  | v :: vs => .error (v :: vs)

/-! ### ex2: CrewMember and SpaceMission -/

/-- Crew ranks (src/ex2/space_crew.py, lines 8-13). -/
inductive Rank where
  | cadet
  | officer
  | lieutenant
  | captain
  | commander
deriving DecidableEq, Repr

/-- Validated `CrewMember` record (src/ex2/space_crew.py, lines 16-23). -/
structure CrewMember where
  member_id : String
  name : String
  rank : Rank
  age : Int
  specialization : String
  years_experience : Int
  is_active : Bool
deriving DecidableEq, Repr

/-- Raw input for a `CrewMember`: `is_active` defaults to `True` when
omitted. -/
structure CrewRaw where
  member_id : String
  name : String
  rank : Rank
  age : Int
  specialization : String
  years_experience : Int
  is_active : Option Bool := none
deriving DecidableEq, Repr

/-- Field-phase constraints of `CrewMember`, in declaration order; `pfx`
prefixes the field path when the member is nested inside a mission. -/
def validateCrewFields (pfx : String) (r : CrewRaw) : List Violation :=
  checkStrLen (pfx ++ "member_id") 3 10 r.member_id ++
  checkStrLen (pfx ++ "name") 2 50 r.name ++
  checkIntRange (pfx ++ "age") 18 80 r.age ++
  checkStrLen (pfx ++ "specialization") 3 30 r.specialization ++
  checkIntRange (pfx ++ "years_experience") 0 50 r.years_experience

/-- The crew member built on the success path, default filled in. -/
def mkCrew (r : CrewRaw) : CrewMember :=
  ⟨r.member_id, r.name, r.rank, r.age, r.specialization,
   r.years_experience, r.is_active.getD true⟩

/-- Standalone pipeline for `CrewMember`: it declares no model validator,
so the field phase is all there is. -/
def validateCrewMember (r : CrewRaw) : VResult CrewMember :=
  match validateCrewFields "" r with
  | [] => .ok (mkCrew r)
  | v :: vs => .error (v :: vs)

/-- Validated `SpaceMission` record (src/ex2/space_crew.py, lines 26-36). -/
structure SpaceMission where
  mission_id : String
  mission_name : String
  destination : String
  launch_date : Nat
  duration_days : Int
  crew : List CrewMember
  mission_status : String
  budget_millions : Rat
deriving DecidableEq, Repr

/-- Raw input for a `SpaceMission`: `mission_status` defaults to
`"planned"` when omitted. -/
structure MissionRaw where
  mission_id : String
  mission_name : String
  destination : String
  launch_date : Nat
  duration_days : Int
  crew : List CrewRaw
  mission_status : Option String := none
  budget_millions : Rat
deriving DecidableEq, Repr

/-- Field-phase violations of the nested crew list: each element is
field-validated with its index-prefixed path. -/
def crewViolations : Nat → List CrewRaw → List Violation
  | _, [] => []
  | i, r :: rs =>
    validateCrewFields ("crew[" ++ toString i ++ "].") r ++
    crewViolations (i + 1) rs

/-- Field-phase constraints of `SpaceMission`, in declaration order,
including the crew collection-size bound and the nested crew members. -/
def validateMissionFields (r : MissionRaw) : List Violation :=
  checkStrLen "mission_id" 5 15 r.mission_id ++
  checkStrLen "mission_name" 3 100 r.mission_name ++
  checkStrLen "destination" 3 50 r.destination ++
  checkIntRange "duration_days" 1 3650 r.duration_days ++
  checkListSize "crew" 1 12 r.crew.length ++
  crewViolations 0 r.crew ++
  checkRatRange "budget_millions" 1 10000 r.budget_millions

/-- The mission built after the field phase, defaults filled in. -/
def mkMission (r : MissionRaw) : SpaceMission :=
  ⟨r.mission_id, r.mission_name, r.destination, r.launch_date,
   r.duration_days, r.crew.map mkCrew, r.mission_status.getD "planned",
   r.budget_millions⟩

/-- `any(member.rank in (Rank.captain, Rank.commander) for member in crew)`. -/
def hasLeader (crew : List CrewMember) : Bool :=
  crew.any (fun m => m.rank == Rank.captain || m.rank == Rank.commander)

/-- `sum(1 for member in crew if member.years_experience >= 5)`. -/
def experiencedCount (crew : List CrewMember) : Nat :=
  crew.countP (fun m => 5 ≤ m.years_experience)

/-- `any(not member.is_active for member in crew)`. -/
def anyInactive (crew : List CrewMember) : Bool :=
  crew.any (fun m => !m.is_active)

/-- The `validate_mission_id` model validator of `SpaceMission`
(src/ex2/space_crew.py, lines 38-64): returns the message of the first
failing rule in declaration order, or `none` when every rule holds.  The
experience rule compares `experienced_count < len(crew) / 2` with Python
float division, which is exact on these magnitudes, so it is rendered
with rational division. -/
def validate_mission_id (m : SpaceMission) : Option String :=
  if !(strStartsWith m.mission_id "M") then
    some "Mission ID must start with 'M'"
  else if !(hasLeader m.crew) then
    some "Mission must have at least one Captain or Commander"
  else if 365 < m.duration_days ∧
      (experiencedCount m.crew : Rat) < (m.crew.length : Rat) / 2 then
    some "Long missions require at least 50% experienced crew (5+ years)"
  else if anyInactive m.crew then
    some "All crew members must be active"
  else
    none

/-- Full pipeline for `SpaceMission`: exhaustive field phase (own fields
plus nested crew), then the short-circuit business-rule phase. -/
def validateMission (r : MissionRaw) : VResult SpaceMission :=
  match validateMissionFields r with
  | [] =>
    match validate_mission_id (mkMission r) with
    | some m => .error [⟨"", .businessRuleError, m⟩]
    | none => .ok (mkMission r)
  | v :: vs => .error (v :: vs)

/-! ### Helper lemmas about the constraint primitives -/

theorem checkStrLen_nil {f : String} {lo hi : Nat} {s : String}
    (h1 : lo ≤ s.length) (h2 : s.length ≤ hi) : checkStrLen f lo hi s = [] := by
  unfold checkStrLen
  rw [if_neg (by omega), if_neg (by omega)]

theorem checkIntRange_nil {f : String} {lo hi v : Int}
    (h1 : lo ≤ v) (h2 : v ≤ hi) : checkIntRange f lo hi v = [] := by
  unfold checkIntRange
  rw [if_neg (by omega), if_neg (by omega)]

theorem checkIntRange_high {f : String} {lo hi v : Int}
    (h1 : lo ≤ v) (h2 : hi < v) :
    checkIntRange f lo hi v = [⟨f, .rangeError, msgLeInt hi⟩] := by
  unfold checkIntRange
  rw [if_neg (by omega), if_pos h2]

theorem checkRatRange_nil {f : String} {lo hi v : Rat}
    (h1 : lo ≤ v) (h2 : v ≤ hi) : checkRatRange f lo hi v = [] := by
  unfold checkRatRange
  rw [if_neg (by linarith), if_neg (by linarith)]

theorem checkRatRange_high {f : String} {lo hi v : Rat}
    (h1 : lo ≤ v) (h2 : hi < v) :
    checkRatRange f lo hi v = [⟨f, .rangeError, msgLeRat hi⟩] := by
  unfold checkRatRange
  rw [if_neg (by linarith), if_pos h2]

theorem checkOptStrMax_nil {f : String} {hi : Nat} {s : Option String}
    (h : ∀ t, s = some t → t.length ≤ hi) : checkOptStrMax f hi s = [] := by
  cases s with
  | none => rfl
  | some t =>
    have ht := h t rfl
    show (if hi < t.length
      then [Violation.mk f VKind.lengthError (msgMaxLen hi)] else []) = []
    rw [if_neg (by omega)]

/-- The field phase of a station, written out with the raw values. -/
theorem validateStationFields_expand (r : StationRaw) :
    validateStationFields r =
      checkStrLen "station_id" 3 10 r.station_id ++
      checkStrLen "name" 1 50 r.name ++
      checkIntRange "crew_size" 1 20 r.crew_size ++
      checkRatRange "power_level" 0 100 r.power_level ++
      checkRatRange "oxygen_level" 0 100 r.oxygen_level ++
      checkOptStrMax "notes" 200 r.notes := rfl

/-! ### Station theorems -/

/-- The valid demo station of `main` (src/ex0/space_station.py, lines
40-49), with the float literals 85.5 and 92.3 written as the equal
rationals 171/2 and 923/10. -/
def stationOk : StationRaw :=
  { station_id := "ISS001", name := "International Space Station",
    crew_size := 6, power_level := mkRat 171 2,
    oxygen_level := mkRat 923 10, last_maintenance := 0,
    is_operational := some true, notes := some "All systems nominal." }

/-- C6: the numeric-range constraint is inclusive at both bounds: an
otherwise-valid station input is accepted for every integer crew size
between 1 and 20 inclusive, and a crew size of 25 is rejected with
exactly one violation, of range kind, on the `crew_size` field. -/
theorem crew_size_bounds_inclusive (r : StationRaw)
    (hid1 : 3 ≤ r.station_id.length) (hid2 : r.station_id.length ≤ 10)
    (hn1 : 1 ≤ r.name.length) (hn2 : r.name.length ≤ 50)
    (hp1 : 0 ≤ r.power_level) (hp2 : r.power_level ≤ 100)
    (ho1 : 0 ≤ r.oxygen_level) (ho2 : r.oxygen_level ≤ 100)
    (hnotes : ∀ t, r.notes = some t → t.length ≤ 200) :
    (∀ c : Int, 1 ≤ c → c ≤ 20 →
      validateStation { r with crew_size := c } =
        .ok (mkStation { r with crew_size := c })) ∧
    validateStation { r with crew_size := 25 } =
      .error [⟨"crew_size", .rangeError, msgLeInt 20⟩] := by
  constructor
  · intro c h1 h2
    have e : validateStationFields { r with crew_size := c } =
        checkStrLen "station_id" 3 10 r.station_id ++
        checkStrLen "name" 1 50 r.name ++
        checkIntRange "crew_size" 1 20 c ++
        checkRatRange "power_level" 0 100 r.power_level ++
        checkRatRange "oxygen_level" 0 100 r.oxygen_level ++
        checkOptStrMax "notes" 200 r.notes := rfl
    have hfields : validateStationFields { r with crew_size := c } = [] := by
      rw [e, checkStrLen_nil hid1 hid2, checkStrLen_nil hn1 hn2,
          checkIntRange_nil h1 h2, checkRatRange_nil hp1 hp2,
          checkRatRange_nil ho1 ho2, checkOptStrMax_nil hnotes]
      rfl
    unfold validateStation
    rw [hfields]
  · have e : validateStationFields { r with crew_size := 25 } =
        checkStrLen "station_id" 3 10 r.station_id ++
        checkStrLen "name" 1 50 r.name ++
        checkIntRange "crew_size" 1 20 25 ++
        checkRatRange "power_level" 0 100 r.power_level ++
        checkRatRange "oxygen_level" 0 100 r.oxygen_level ++
        checkOptStrMax "notes" 200 r.notes := rfl
    have hfields : validateStationFields { r with crew_size := 25 } =
        [⟨"crew_size", .rangeError, msgLeInt 20⟩] := by
      rw [e, checkStrLen_nil hid1 hid2, checkStrLen_nil hn1 hn2,
          checkIntRange_high (by omega) (by omega),
          checkRatRange_nil hp1 hp2,
          checkRatRange_nil ho1 ho2, checkOptStrMax_nil hnotes]
      rfl
    unfold validateStation
    rw [hfields]

/-- Witness for C6 at the demo station of `main` (src/ex0, lines 40-49). -/
theorem crew_size_bounds_inclusive_witness :
    (∀ c : Int, 1 ≤ c → c ≤ 20 →
      validateStation { stationOk with crew_size := c } =
        .ok (mkStation { stationOk with crew_size := c })) ∧
    validateStation { stationOk with crew_size := 25 } =
      .error [⟨"crew_size", .rangeError, msgLeInt 20⟩] :=
  crew_size_bounds_inclusive stationOk
    (by decide) (by decide) (by decide) (by decide)
    (by decide) (by decide) (by decide) (by decide)
    (by intro t ht; cases ht; decide)

/-- C3: an input with two field-level constraint violations yields one
violation per offending field: a station with `crew_size = 25` and
`power_level = 150.0`, all other fields valid, yields exactly two
violations, one on `crew_size` and one on `power_level`, in field
declaration order. -/
theorem station_two_field_violations (r : StationRaw)
    (hid1 : 3 ≤ r.station_id.length) (hid2 : r.station_id.length ≤ 10)
    (hn1 : 1 ≤ r.name.length) (hn2 : r.name.length ≤ 50)
    (ho1 : 0 ≤ r.oxygen_level) (ho2 : r.oxygen_level ≤ 100)
    (hnotes : ∀ t, r.notes = some t → t.length ≤ 200) :
    validateStation { r with crew_size := 25, power_level := 150 } =
      .error [⟨"crew_size", .rangeError, msgLeInt 20⟩,
              ⟨"power_level", .rangeError, msgLeRat 100⟩] := by
  have e : validateStationFields { r with crew_size := 25, power_level := 150 } =
      checkStrLen "station_id" 3 10 r.station_id ++
      checkStrLen "name" 1 50 r.name ++
      checkIntRange "crew_size" 1 20 25 ++
      checkRatRange "power_level" 0 100 150 ++
      checkRatRange "oxygen_level" 0 100 r.oxygen_level ++
      checkOptStrMax "notes" 200 r.notes := rfl
  have hfields : validateStationFields { r with crew_size := 25, power_level := 150 } =
      [⟨"crew_size", .rangeError, msgLeInt 20⟩,
       ⟨"power_level", .rangeError, msgLeRat 100⟩] := by
    rw [e, checkStrLen_nil hid1 hid2, checkStrLen_nil hn1 hn2,
        checkIntRange_high (by omega) (by omega),
        checkRatRange_high (by norm_num) (by norm_num),
        checkRatRange_nil ho1 ho2, checkOptStrMax_nil hnotes]
    rfl
  unfold validateStation
  rw [hfields]

/-- Witness for C3 at the demo station. -/
theorem station_two_field_violations_witness :
    validateStation { stationOk with crew_size := 25, power_level := 150 } =
      .error [⟨"crew_size", .rangeError, msgLeInt 20⟩,
              ⟨"power_level", .rangeError, msgLeRat 100⟩] :=
  station_two_field_violations stationOk
    (by decide) (by decide) (by decide) (by decide)
    (by decide) (by decide) (by intro t ht; cases ht; decide)

/-! ### Contact business-rule evaluation lemmas -/

theorem rules_physical (c : AlienContact)
    (h0 : strStartsWith c.contact_id "AC" = true)
    (h1 : c.contact_type = ContactType.physical)
    (h2 : c.is_verified = false) :
    validate_business_rules c = some "Physical contact reports must be verified" := by
  unfold validate_business_rules
  rw [h0, h1, if_neg (by decide), if_pos ⟨rfl, h2⟩]

theorem rules_telepathic (c : AlienContact)
    (h0 : strStartsWith c.contact_id "AC" = true)
    (h1 : c.contact_type = ContactType.telepathic)
    (h2 : c.witness_count < 3) :
    validate_business_rules c = some "Telepathic contact requires at least 3 witnesses" := by
  unfold validate_business_rules
  rw [h0, h1, if_neg (by decide), if_neg (by simp), if_pos ⟨rfl, h2⟩]

theorem rules_not_telepathic_msg (c : AlienContact) (h : 3 ≤ c.witness_count) :
    validate_business_rules c ≠ some "Telepathic contact requires at least 3 witnesses" := by
  intro hEq
  unfold validate_business_rules at hEq
  split at hEq
  · exact absurd hEq (by decide)
  · split at hEq
    · exact absurd hEq (by decide)
    · split at hEq
      · rename_i hc
        omega
      · split at hEq
        · exact absurd hEq (by decide)
        · exact absurd hEq (by decide)

theorem validateContact_rule_error {r : ContactRaw} {m : String}
    (hf : validateContactFields r = [])
    (hm : validate_business_rules (mkContact r) = some m) :
    validateContact r = .error [⟨"", .businessRuleError, m⟩] := by
  unfold validateContact
  rw [hf, hm]

theorem validateContact_ok {r : ContactRaw}
    (hf : validateContactFields r = [])
    (hm : validate_business_rules (mkContact r) = none) :
    validateContact r = .ok (mkContact r) := by
  unfold validateContact
  rw [hf, hm]

/-! ### Contact theorems -/

/-- A field-valid telepathic report with one witness whose contact id does
not carry the `AC` prefix (a constraint that is a business rule, not a
field constraint). -/
def cexC5 : ContactRaw :=
  { contact_id := "XY_24_01", timestamp := 0, location := "Area 51",
    contact_type := .telepathic, signal_strength := 5,
    duration_minutes := 10, witness_count := 1 }

/-- The same telepathic one-witness report with a conforming contact id. -/
def acTele : ContactRaw :=
  { contact_id := "AC_24_01", timestamp := 0, location := "Area 51",
    contact_type := .telepathic, signal_strength := 5,
    duration_minutes := 10, witness_count := 1 }

/-- C5 counterexample: `cexC5` passes every field constraint, is
telepathic and has one witness, yet its single violation carries the
contact-id prefix message, not the telepathic one; and even with the
`AC` prefix (`acTele`) the violation's message is capitalized
"Telepathic …", not the claimed "telepathic …". -/
theorem telepathic_claim_counterexample :
    validateContactFields cexC5 = [] ∧
    cexC5.contact_type = ContactType.telepathic ∧
    cexC5.witness_count = 1 ∧
    validateContact cexC5 =
      .error [⟨"", .businessRuleError, "Contact ID must start with 'AC' (Alien Contact)"⟩] ∧
    validateContact acTele =
      .error [⟨"", .businessRuleError, "Telepathic contact requires at least 3 witnesses"⟩] ∧
    validateContact acTele ≠
      .error [⟨"", .businessRuleError, "telepathic contact requires at least 3 witnesses"⟩] := by
  refine ⟨by decide, by decide, by decide, ?_, ?_, ?_⟩
  · exact validateContact_rule_error (by decide) (by decide)
  · exact validateContact_rule_error (by decide) (by decide)
  · rw [validateContact_rule_error (r := acTele)
      (m := "Telepathic contact requires at least 3 witnesses")
      (by decide) (by decide)]
    decide

/-- C5 (amended): a contact input passing all field constraints whose
contact id carries the `AC` prefix, with `contact_type = telepathic` and
`witness_count = 1`, fails with exactly one business-rule violation whose
message is "Telepathic contact requires at least 3 witnesses"; with
`witness_count ≥ 3` that rule never produces a violation. -/
theorem telepathic_needs_three_witnesses (r : ContactRaw)
    (hf : validateContactFields r = [])
    (hac : strStartsWith r.contact_id "AC" = true)
    (hty : r.contact_type = ContactType.telepathic) :
    (r.witness_count = 1 →
      validateContact r =
        .error [⟨"", .businessRuleError,
                 "Telepathic contact requires at least 3 witnesses"⟩]) ∧
    (3 ≤ r.witness_count →
      validate_business_rules (mkContact r) ≠
        some "Telepathic contact requires at least 3 witnesses") := by
  constructor
  · intro hw
    exact validateContact_rule_error hf
      (rules_telepathic (mkContact r) hac hty (by
        show r.witness_count < 3
        omega))
  · intro hw
    exact rules_not_telepathic_msg (mkContact r) hw

/-- Witness for the amended C5 at `acTele` and at the same report with
five witnesses. -/
theorem telepathic_needs_three_witnesses_witness :
    (acTele.witness_count = 1 →
      validateContact acTele =
        .error [⟨"", .businessRuleError,
                 "Telepathic contact requires at least 3 witnesses"⟩]) ∧
    (3 ≤ acTele.witness_count →
      validate_business_rules (mkContact acTele) ≠
        some "Telepathic contact requires at least 3 witnesses") :=
  telepathic_needs_three_witnesses acTele (by decide) (by decide) (by decide)

/-- C8: an omitted `is_verified` defaults to `False`, so an otherwise
valid physical-contact report constructed without `is_verified` is
rejected by the verified-flag business rule. -/
theorem omitted_is_verified_defaults_false (r : ContactRaw)
    (hf : validateContactFields r = [])
    (hac : strStartsWith r.contact_id "AC" = true)
    (hty : r.contact_type = ContactType.physical)
    (hiv : r.is_verified = none) :
    (mkContact r).is_verified = false ∧
    validateContact r =
      .error [⟨"", .businessRuleError, "Physical contact reports must be verified"⟩] := by
  have hv : (mkContact r).is_verified = false := by
    show r.is_verified.getD false = false
    rw [hiv]
    rfl
  exact ⟨hv, validateContact_rule_error hf (rules_physical (mkContact r) hac hty hv)⟩

/-- A physical-contact report constructed without `is_verified`. -/
def physNoVerify : ContactRaw :=
  { contact_id := "AC_24_02", timestamp := 0, location := "Desert Outpost",
    contact_type := .physical, signal_strength := 5,
    duration_minutes := 10, witness_count := 2 }

/-- Witness for C8 at `physNoVerify`. -/
theorem omitted_is_verified_defaults_false_witness :
    (mkContact physNoVerify).is_verified = false ∧
    validateContact physNoVerify =
      .error [⟨"", .businessRuleError, "Physical contact reports must be verified"⟩] :=
  omitted_is_verified_defaults_false physNoVerify
    (by decide) (by decide) (by decide) (by decide)

/-! ### Mission business-rule evaluation lemmas -/

/-- The Python comparison `experienced_count < len(crew) / 2` (exact
division), reduced to an integer comparison. -/
theorem expHalf_iff (k n : Nat) : ((k : Rat) < (n : Rat) / 2) ↔ 2 * k < n := by
  rw [lt_div_iff₀ (by norm_num : (0 : Rat) < 2)]
  constructor
  · intro h
    have hn : (k * 2 : Nat) < n := by exact_mod_cast h
    omega
  · intro h
    have hn : ((k * 2 : Nat) : Rat) < n := by exact_mod_cast (by omega : k * 2 < n)
    exact_mod_cast hn

theorem mission_rules_no_leader (m : SpaceMission)
    (h0 : strStartsWith m.mission_id "M" = true)
    (h1 : hasLeader m.crew = false) :
    validate_mission_id m = some "Mission must have at least one Captain or Commander" := by
  unfold validate_mission_id
  rw [h0, h1, if_neg (by decide), if_pos (by decide)]

theorem mission_rules_experience (m : SpaceMission)
    (h0 : strStartsWith m.mission_id "M" = true)
    (h1 : hasLeader m.crew = true)
    (hd : 365 < m.duration_days)
    (hexp : 2 * experiencedCount m.crew < m.crew.length) :
    validate_mission_id m =
      some "Long missions require at least 50% experienced crew (5+ years)" := by
  unfold validate_mission_id
  rw [h0, h1, if_neg (by decide), if_neg (by decide),
      if_pos ⟨hd, (expHalf_iff _ _).mpr hexp⟩]

theorem mission_rules_inactive (m : SpaceMission)
    (h0 : strStartsWith m.mission_id "M" = true)
    (h1 : hasLeader m.crew = true)
    (h2 : 365 < m.duration_days → m.crew.length ≤ 2 * experiencedCount m.crew)
    (h3 : anyInactive m.crew = true) :
    validate_mission_id m = some "All crew members must be active" := by
  have hexp : ¬ (365 < m.duration_days ∧
      (experiencedCount m.crew : Rat) < (m.crew.length : Rat) / 2) := by
    rintro ⟨hd, hlt⟩
    rw [expHalf_iff] at hlt
    have := h2 hd
    omega
  unfold validate_mission_id
  rw [h0, h1, h3, if_neg (by decide), if_neg (by decide), if_neg hexp,
      if_pos (by decide)]

theorem mission_rules_ok (m : SpaceMission)
    (h0 : strStartsWith m.mission_id "M" = true)
    (h1 : hasLeader m.crew = true)
    (h2 : 365 < m.duration_days → m.crew.length ≤ 2 * experiencedCount m.crew)
    (h3 : anyInactive m.crew = false) :
    validate_mission_id m = none := by
  have hexp : ¬ (365 < m.duration_days ∧
      (experiencedCount m.crew : Rat) < (m.crew.length : Rat) / 2) := by
    rintro ⟨hd, hlt⟩
    rw [expHalf_iff] at hlt
    have := h2 hd
    omega
  unfold validate_mission_id
  rw [h0, h1, h3, if_neg (by decide), if_neg (by decide), if_neg hexp,
      if_neg (by decide)]

theorem validateMission_rule_error {r : MissionRaw} {m : String}
    (hf : validateMissionFields r = [])
    (hm : validate_mission_id (mkMission r) = some m) :
    validateMission r = .error [⟨"", .businessRuleError, m⟩] := by
  unfold validateMission
  rw [hf, hm]

theorem validateMission_ok {r : MissionRaw}
    (hf : validateMissionFields r = [])
    (hm : validate_mission_id (mkMission r) = none) :
    validateMission r = .ok (mkMission r) := by
  unfold validateMission
  rw [hf, hm]

/-! ### Mission theorems -/

/-- Demo crew with a leader (src/ex2/space_crew.py, lines 71-89). -/
def crewLeader : CrewRaw :=
  { member_id := "C03", name := "Sarah Connor", rank := .commander, age := 45,
    specialization := "mission command", years_experience := 20,
    is_active := some true }

/-- Demo officer crew member (src/ex2/space_crew.py, lines 80-88). -/
def crewOfficer : CrewRaw :=
  { member_id := "C04", name := "John Smith", rank := .officer, age := 29,
    specialization := "engineering", years_experience := 29,
    is_active := some true }

/-- Demo crew without a leader (src/ex2/space_crew.py, lines 94-112). -/
def crewAlice : CrewRaw :=
  { member_id := "C01", name := "Alice", rank := .officer, age := 30,
    specialization := "engineering", years_experience := 6,
    is_active := some true }

/-- Demo lieutenant (src/ex2/space_crew.py, lines 103-111). -/
def crewBob : CrewRaw :=
  { member_id := "C02", name := "Bob", rank := .lieutenant, age := 35,
    specialization := "navigation", years_experience := 10,
    is_active := some true }

/-- The valid demo mission of `main` (src/ex2/space_crew.py, lines
139-147). -/
def missionOk : MissionRaw :=
  { mission_id := "M2026_OK", mission_name := "Mars Exploration Mission",
    destination := "Mars", launch_date := 0, duration_days := 900,
    crew := [crewLeader, crewOfficer], budget_millions := 2500 }

/-- C2: an input violating two business rules at once (here: a crew with
no captain or commander that also contains an inactive member, every
field constraint and the id-prefix rule passing) yields an error report
with exactly one violation, that of the rule declared first
(leadership). -/
theorem business_rule_short_circuit (r : MissionRaw)
    (hf : validateMissionFields r = [])
    (hid : strStartsWith r.mission_id "M" = true)
    (hlead : hasLeader (r.crew.map mkCrew) = false)
    (_hinact : anyInactive (r.crew.map mkCrew) = true) :
    validateMission r =
      .error [⟨"", .businessRuleError,
               "Mission must have at least one Captain or Commander"⟩] :=
  validateMission_rule_error hf (mission_rules_no_leader (mkMission r) hid hlead)

/-- Witness for C2: the leaderless demo crew with Bob additionally marked
inactive. -/
theorem business_rule_short_circuit_witness :
    validateMission { missionOk with
        crew := [crewAlice, { crewBob with is_active := some false }] } =
      .error [⟨"", .businessRuleError,
               "Mission must have at least one Captain or Commander"⟩] :=
  business_rule_short_circuit
    { missionOk with crew := [crewAlice, { crewBob with is_active := some false }] }
    (by decide) (by decide) (by decide) (by decide)

/-- The valid demo mission with its id changed to one that passes every
field constraint (length 5-15) but lacks the `M` prefix required by the
first business rule. -/
def cexC4 : MissionRaw :=
  { missionOk with mission_id := "X2026_OK" }

/-- C4 counterexample: `cexC4` passes every field constraint, has a
leader, an all-active crew, a duration over 365 days and an experienced
share meeting the exact-division threshold, yet validation does not
succeed: the id-prefix business rule (a rule, not a field constraint)
fires first, so the claim's biconditional fails as stated. -/
theorem experience_claim_counterexample :
    validateMissionFields cexC4 = [] ∧
    hasLeader (cexC4.crew.map mkCrew) = true ∧
    anyInactive (cexC4.crew.map mkCrew) = false ∧
    365 < cexC4.duration_days ∧
    ((cexC4.crew.map mkCrew).length : Rat) / 2 ≤
      (experiencedCount (cexC4.crew.map mkCrew) : Rat) ∧
    validateMission cexC4 =
      .error [⟨"", .businessRuleError, "Mission ID must start with 'M'"⟩] ∧
    validateMission cexC4 ≠ .ok (mkMission cexC4) := by
  refine ⟨by decide, by decide, by decide, by decide, ?_, by decide, by decide⟩
  refine not_lt.mp ?_
  rw [expHalf_iff]
  decide

/-- C4 (amended): for a mission passing all field constraints whose
mission id additionally carries the required `M` prefix (a business
rule, so not covered by "passing all field constraints"), with a leader
and an all-active crew: when the duration exceeds 365 days, validation
succeeds iff the number of crew members with at least 5 years of
experience is at least half the crew size under exact rational division;
when the duration is at most 365 days, the experience rule is not
consulted and validation succeeds regardless of experience. -/
theorem long_mission_experience_rule (r : MissionRaw)
    (hf : validateMissionFields r = [])
    (hid : strStartsWith r.mission_id "M" = true)
    (hlead : hasLeader (r.crew.map mkCrew) = true)
    (hact : anyInactive (r.crew.map mkCrew) = false) :
    (365 < r.duration_days →
      (validateMission r = .ok (mkMission r) ↔
        ((r.crew.map mkCrew).length : Rat) / 2 ≤
          (experiencedCount (r.crew.map mkCrew) : Rat))) ∧
    (r.duration_days ≤ 365 → validateMission r = .ok (mkMission r)) := by
  have hlead' : hasLeader (mkMission r).crew = true := hlead
  have hact' : anyInactive (mkMission r).crew = false := hact
  constructor
  · intro hd
    have hd' : 365 < (mkMission r).duration_days := hd
    constructor
    · intro hok
      by_contra hlt
      rw [not_le] at hlt
      have hlt' : (experiencedCount (mkMission r).crew : Rat) <
          ((mkMission r).crew.length : Rat) / 2 := hlt
      have herr := validateMission_rule_error hf
        (mission_rules_experience (mkMission r) hid hlead' hd'
          ((expHalf_iff _ _).mp hlt'))
      rw [hok] at herr
      exact VResult.noConfusion herr
    · intro hge
      refine validateMission_ok hf (mission_rules_ok (mkMission r) hid hlead' ?_ hact')
      intro _
      have hnot : ¬ ((experiencedCount (r.crew.map mkCrew) : Rat) <
          ((r.crew.map mkCrew).length : Rat) / 2) := not_lt.mpr hge
      rw [expHalf_iff] at hnot
      show (mkMission r).crew.length ≤ 2 * experiencedCount (mkMission r).crew
      have hres : (r.crew.map mkCrew).length ≤
          2 * experiencedCount (r.crew.map mkCrew) := by omega
      exact hres
  · intro hd
    refine validateMission_ok hf (mission_rules_ok (mkMission r) hid hlead' ?_ hact')
    intro hcon
    have hcon' : 365 < r.duration_days := hcon
    omega

/-- Witness for C4 at the valid demo mission (duration 900 days, both
crew members experienced). -/
theorem long_mission_experience_rule_witness :
    (365 < missionOk.duration_days →
      (validateMission missionOk = .ok (mkMission missionOk) ↔
        ((missionOk.crew.map mkCrew).length : Rat) / 2 ≤
          (experiencedCount (missionOk.crew.map mkCrew) : Rat))) ∧
    (missionOk.duration_days ≤ 365 →
      validateMission missionOk = .ok (mkMission missionOk)) :=
  long_mission_experience_rule missionOk
    (by decide) (by decide) (by decide) (by decide)

/-- C9: `mission_status` is unconstrained free text: an otherwise-valid
mission validates Ok with any string as its status, and an omitted status
defaults to "planned". -/
theorem mission_status_unconstrained (r : MissionRaw)
    (hf : validateMissionFields r = [])
    (hid : strStartsWith r.mission_id "M" = true)
    (hlead : hasLeader (r.crew.map mkCrew) = true)
    (hexp : 365 < r.duration_days →
      (r.crew.map mkCrew).length ≤ 2 * experiencedCount (r.crew.map mkCrew))
    (hact : anyInactive (r.crew.map mkCrew) = false) :
    (∀ s : String, validateMission { r with mission_status := some s } =
      .ok { mkMission r with mission_status := s }) ∧
    validateMission { r with mission_status := none } =
      .ok { mkMission r with mission_status := "planned" } := by
  constructor
  · intro s
    have hf' : validateMissionFields { r with mission_status := some s } = [] := hf
    have hid' : strStartsWith
        (mkMission { r with mission_status := some s }).mission_id "M" = true := hid
    have hlead' : hasLeader
        (mkMission { r with mission_status := some s }).crew = true := hlead
    have hexp' : 365 < (mkMission { r with mission_status := some s }).duration_days →
        (mkMission { r with mission_status := some s }).crew.length ≤
          2 * experiencedCount (mkMission { r with mission_status := some s }).crew := hexp
    have hact' : anyInactive
        (mkMission { r with mission_status := some s }).crew = false := hact
    exact validateMission_ok hf'
      (mission_rules_ok (mkMission { r with mission_status := some s })
        hid' hlead' hexp' hact')
  · have hf' : validateMissionFields { r with mission_status := none } = [] := hf
    have hid' : strStartsWith
        (mkMission { r with mission_status := none }).mission_id "M" = true := hid
    have hlead' : hasLeader
        (mkMission { r with mission_status := none }).crew = true := hlead
    have hexp' : 365 < (mkMission { r with mission_status := none }).duration_days →
        (mkMission { r with mission_status := none }).crew.length ≤
          2 * experiencedCount (mkMission { r with mission_status := none }).crew := hexp
    have hact' : anyInactive
        (mkMission { r with mission_status := none }).crew = false := hact
    exact validateMission_ok hf'
      (mission_rules_ok (mkMission { r with mission_status := none })
        hid' hlead' hexp' hact')

/-- Witness for C9 at the valid demo mission. -/
theorem mission_status_unconstrained_witness :
    (∀ s : String, validateMission { missionOk with mission_status := some s } =
      .ok { mkMission missionOk with mission_status := s }) ∧
    validateMission { missionOk with mission_status := none } =
      .ok { mkMission missionOk with mission_status := "planned" } :=
  mission_status_unconstrained missionOk
    (by decide) (by decide) (by decide) (by decide) (by decide)

/-- C10: an inactive crew member is itself a valid `CrewMember`
(standalone validation accepts it when its field constraints hold); only
the mission-level all-active business rule rejects a mission whose crew
contains it. -/
theorem inactive_member_standalone_valid (c : CrewRaw)
    (hfc : validateCrewFields "" c = [])
    (hin : c.is_active = some false) :
    validateCrewMember c = .ok (mkCrew c) ∧
    (mkCrew c).is_active = false ∧
    (∀ r : MissionRaw, validateMissionFields r = [] →
      strStartsWith r.mission_id "M" = true →
      hasLeader (r.crew.map mkCrew) = true →
      (365 < r.duration_days →
        (r.crew.map mkCrew).length ≤ 2 * experiencedCount (r.crew.map mkCrew)) →
      c ∈ r.crew →
      validateMission r =
        .error [⟨"", .businessRuleError, "All crew members must be active"⟩]) := by
  have hv : (mkCrew c).is_active = false := by
    show c.is_active.getD true = false
    rw [hin]
    rfl
  refine ⟨?_, hv, ?_⟩
  · unfold validateCrewMember
    rw [hfc]
  · intro r hf hid hlead hexp hmem
    have hany : anyInactive (r.crew.map mkCrew) = true := by
      unfold anyInactive
      rw [List.any_eq_true]
      exact ⟨mkCrew c, List.mem_map_of_mem mkCrew hmem, by rw [hv]; rfl⟩
    have hid' : strStartsWith (mkMission r).mission_id "M" = true := hid
    have hlead' : hasLeader (mkMission r).crew = true := hlead
    have hexp' : 365 < (mkMission r).duration_days →
        (mkMission r).crew.length ≤ 2 * experiencedCount (mkMission r).crew := hexp
    have hany' : anyInactive (mkMission r).crew = true := hany
    exact validateMission_rule_error hf
      (mission_rules_inactive (mkMission r) hid' hlead' hexp' hany')

/-- Witness for C10: the demo officer marked inactive, inside a
short-duration mission led by the demo commander. -/
theorem inactive_member_standalone_valid_witness :
    validateCrewMember { crewOfficer with is_active := some false } =
      .ok (mkCrew { crewOfficer with is_active := some false }) ∧
    (mkCrew { crewOfficer with is_active := some false }).is_active = false ∧
    (∀ r : MissionRaw, validateMissionFields r = [] →
      strStartsWith r.mission_id "M" = true →
      hasLeader (r.crew.map mkCrew) = true →
      (365 < r.duration_days →
        (r.crew.map mkCrew).length ≤ 2 * experiencedCount (r.crew.map mkCrew)) →
      { crewOfficer with is_active := some false } ∈ r.crew →
      validateMission r =
        .error [⟨"", .businessRuleError, "All crew members must be active"⟩]) :=
  inactive_member_standalone_valid
    { crewOfficer with is_active := some false } (by decide) (by decide)

/-! ### Determinism -/

/-- C7: validation is deterministic: on equal raw inputs each of the
three pipelines returns structurally identical results (the same Ok
record, or the same violations in the same order). -/
theorem validate_deterministic (s1 s2 : StationRaw) (c1 c2 : ContactRaw)
    (m1 m2 : MissionRaw) (hs : s1 = s2) (hc : c1 = c2) (hm : m1 = m2) :
    validateStation s1 = validateStation s2 ∧
    validateContact c1 = validateContact c2 ∧
    validateMission m1 = validateMission m2 := by
  subst hs
  subst hc
  subst hm
  exact ⟨rfl, rfl, rfl⟩

/-- Witness for C7 at the demo inputs. -/
theorem validate_deterministic_witness :
    validateStation stationOk = validateStation stationOk ∧
    validateContact acTele = validateContact acTele ∧
    validateMission missionOk = validateMission missionOk :=
  validate_deterministic stationOk stationOk acTele acTele missionOk missionOk
    rfl rfl rfl

end PyMod09
